import Mathlib

/-!
Verification of the hrms-semantic-layer repository against its specification.

The development shallowly embeds the ETL/sync orchestration of the repository:

* `scripts/sync_from_sqlserver.py` — `SQLServerSyncManager.sync_table`,
  `update_metadata`, `sync_all`, and the column-name cleaning applied to
  extracted dataframes;
* `init_semantic_layer.py` — `sanitize_duckdb_name`,
  `import_table_from_sql_server`, `create_example_raw_views`, the layer
  installation order of `run`, and the sorted-filename execution of the
  model SQL files;
* `scripts/cache_view.py` — `cache_view`.

Database rows are opaque to the orchestration code (it only moves them in
bulk and counts them), so rows are modelled by an abstract token type.
Each fallible external step (the SQL Server count query, the row
extraction, the DuckDB bulk load) is a parameter of type `Except String _`
whose `error` case carries the Python exception message; the embedding
then computes the exact sequence of database effects the script issues,
and the resulting database state is obtained by folding the effects.
-/

/-! ## Character-level facts used by the name-sanitizing functions -/

theorem char_toNat_inj (c d : Char) (h : c.toNat = d.toNat) : c = d :=
  Char.eq_of_val_eq (UInt32.ext h)

theorem char_toNat_ofNat (n : Nat) (h : n.isValidChar) : (Char.ofNat n).toNat = n := by
  simp [Char.ofNat, h, Char.ofNatAux, Char.toNat, UInt32.toNat]

theorem toLower_upper (c : Char) (h : 65 ≤ c.toNat ∧ c.toNat ≤ 90) :
    (Char.toLower c).toNat = c.toNat + 32 := by
  have hv : (c.toNat + 32).isValidChar := by unfold Nat.isValidChar; omega
  simp only [Char.toLower]
  rw [if_pos ⟨h.1, h.2⟩]
  exact char_toNat_ofNat _ hv

theorem toLower_not_upper (c : Char) (h : ¬ (65 ≤ c.toNat ∧ c.toNat ≤ 90)) :
    Char.toLower c = c := by
  simp only [Char.toLower]
  rw [if_neg]
  intro hc
  exact h ⟨hc.1, hc.2⟩

theorem toLower_toLower (c : Char) : (c.toLower).toLower = c.toLower := by
  by_cases h : 65 ≤ c.toNat ∧ c.toNat ≤ 90
  · have h1 := toLower_upper c h
    apply toLower_not_upper
    omega
  · rw [toLower_not_upper c h, toLower_not_upper c h]

theorem toLower_ne (c x : Char) (hx : x.toNat < 97) (hc : c ≠ x) : c.toLower ≠ x := by
  by_cases h : 65 ≤ c.toNat ∧ c.toNat ≤ 90
  · have h1 := toLower_upper c h
    intro he
    rw [he] at h1
    omega
  · rw [toLower_not_upper c h]
    exact hc

theorem isDigit_iff_toNat (c : Char) : c.isDigit = true ↔ 48 ≤ c.toNat ∧ c.toNat ≤ 57 := by
  simp only [Char.isDigit, Bool.and_eq_true, decide_eq_true_eq]
  constructor
  · rintro ⟨ha, hb⟩
    exact ⟨ha, hb⟩
  · rintro ⟨ha, hb⟩
    exact ⟨ha, hb⟩

/-! ## Name sanitizing

`sync_from_sqlserver.py` cleans extracted column names with
`col.replace(' ', '_').replace('$', '').replace('#', '')`, and
`init_semantic_layer.py` converts SQL table names with
`sanitize_duckdb_name`.  Both are per-character rewrites, embedded here on
`List Char`; Python's `str.lower` is `Char.toLower` per character and
`str.strip("'\x22")` removes the maximal runs of quote characters at both
ends.
-/

def mapChars (f : Char → List Char) : List Char → List Char
  | [] => []
  | c :: cs => f c ++ mapChars f cs

def isNameQuote (c : Char) : Bool := c == '\'' || c == '"'

def stripQuotes (s : List Char) : List Char :=
  ((s.dropWhile isNameQuote).reverse.dropWhile isNameQuote).reverse

/-- One column name of `df.columns` after the sync script's cleaning:
`col.replace(' ', '_').replace('$', '').replace('#', '')`. -/
def cleanColumnChar (c : Char) : List Char :=
  if c == ' ' then ['_']
  else if c == '$' then []
  else if c == '#' then []
  else [c]

def cleanColumnName (s : String) : String := ⟨mapChars cleanColumnChar s.data⟩

/-- Per-character action of the replace/lower chain of `sanitize_duckdb_name`:
`.replace(' ', '_').replace('$', '').replace('-', '_').replace("'", '').lower()`. -/
def sanitizeChar (c : Char) : List Char :=
  if c == ' ' then ['_']
  else if c == '$' then []
  else if c == '-' then ['_']
  else if c == '\'' then []
  else [c.toLower]

def sanitizeCore (s : List Char) : List Char := mapChars sanitizeChar (stripQuotes s)

def sanitizeName (s : List Char) : List Char :=
  match sanitizeCore s with
  | [] => []
  | c :: cs => if c.isDigit then 't' :: '_' :: c :: cs else c :: cs

/-- `SemanticLayerInitializer.sanitize_duckdb_name` (init_semantic_layer.py,
lines 149-158): strip surrounding quotes, rewrite special characters,
lowercase, and prefix `t_` when the result starts with a digit. -/
def sanitize_duckdb_name (s : String) : String := ⟨sanitizeName s.data⟩

def headDigit : List Char → Bool
  | [] => false
  | c :: _ => c.isDigit

def headQuote : List Char → Bool
  | [] => false
  | c :: _ => isNameQuote c

example : sanitize_duckdb_name "My-Table" = "my_table" := by decide
example : sanitize_duckdb_name "2024 Pay$roll" = "t_2024_payroll" := by decide
example : cleanColumnName "Net Pay$ #1" = "Net_Pay_1" := by decide

/-! ## The sync manager (`scripts/sync_from_sqlserver.py`)

Rows are opaque tokens.  `sync_table` is embedded as the exact sequence of
DuckDB effects it issues, given the outcomes of its three fallible
external steps: the `SELECT COUNT(*)` on SQL Server (`countR`), the
`pd.read_sql` extraction (`extractR`) and the `CREATE TABLE … AS SELECT *
FROM df` bulk load (`loadR`).  The Python `try` block catches every
exception and writes one `_metadata.data_freshness` row in the `except`
branch.
-/

/-- Opaque row tokens: the orchestration never inspects row contents. -/
abbrev Row := Nat

inductive SyncEffect where
  | dropTable (schema name : String)
  | createTable (schema name : String) (rows : List Row)
  | writeFreshness (table : String) (rowCount : Nat) (status : String)
deriving DecidableEq

structure DuckDB where
  tables : List ((String × String) × List Row)
  freshness : List (String × Nat × String)
deriving DecidableEq

def applySyncEffect (db : DuckDB) : SyncEffect → DuckDB
  | .dropTable s n =>
      { db with tables := db.tables.filter (fun e => decide (e.1 ≠ (s, n))) }
  | .createTable s n rows =>
      { db with tables := ((s, n), rows) :: db.tables }
  | .writeFreshness t c st =>
      { db with freshness := (t, c, st) :: db.freshness.filter (fun r => decide (r.1 ≠ t)) }

def applySyncEffects (db : DuckDB) (es : List SyncEffect) : DuckDB :=
  es.foldl applySyncEffect db

def lookupTable (db : DuckDB) (schema name : String) : Option (List Row) :=
  (db.tables.find? (fun e => decide (e.1 = (schema, name)))).map (·.2)

def tableRowCount (db : DuckDB) (schema name : String) : Nat :=
  ((lookupTable db schema name).getD []).length

/-- `self.batch_size = self.config['sync'].get('batch_size', 10000)`
(sync_from_sqlserver.py, line 26). -/
def batch_size (cfg : Option Nat) : Nat := cfg.getD 10000

/-- `SQLServerSyncManager.update_metadata`: one
`INSERT OR REPLACE INTO _metadata.data_freshness` row. -/
def update_metadata (table_name : String) (row_count : Nat) (status : String) :
    List SyncEffect :=
  [.writeFreshness table_name row_count status]

/-- `SQLServerSyncManager.sync_table` (sync_from_sqlserver.py, lines 66-112):
count the source rows, return early when the table is empty, otherwise
extract, drop the existing `raw."<name>"` table, recreate it from the
dataframe in one statement, and record the outcome; any exception is
caught and recorded as a `failed: <error>` freshness row. -/
def sync_table (table_name : String) (countR : Except String Nat)
    (extractR : Except String (List Row)) (loadR : Except String Unit) :
    List SyncEffect :=
  match countR with
  | .error e => update_metadata table_name 0 ("failed: " ++ e)
  | .ok row_count =>
    if row_count = 0 then []
    else
      match extractR with
      | .error e => update_metadata table_name 0 ("failed: " ++ e)
      | .ok rows =>
        match loadR with
        | .error e =>
            .dropTable "raw" table_name :: update_metadata table_name 0 ("failed: " ++ e)
        | .ok _ =>
            .dropTable "raw" table_name :: .createTable "raw" table_name rows ::
              update_metadata table_name row_count "success"

def isCreateEffect : SyncEffect → Bool
  | .createTable _ _ _ => true
  | _ => false

/-- `SQLServerSyncManager.sync_all` (sync_from_sqlserver.py, lines 121-147):
iterate over the configured tables; `sync_table` traps its own exceptions,
so the `try` of the loop body completes and `success_count` is incremented
on every iteration. -/
def sync_all (tables : List String) (countOf : String → Except String Nat)
    (extractOf : String → Except String (List Row))
    (loadOf : String → Except String Unit) (db : DuckDB) : Nat × DuckDB :=
  tables.foldl
    (fun acc t =>
      (acc.1 + 1, applySyncEffects acc.2 (sync_table t (countOf t) (extractOf t) (loadOf t))))
    (0, db)

/-- Number of `_metadata.data_freshness` rows whose status column is
`success`. -/
def successCount (db : DuckDB) : Nat :=
  (db.freshness.filter (fun r => decide (r.2.2 = "success"))).length

/-! ## The initializer (`init_semantic_layer.py`) -/

/-- The nine top-level actions of `SemanticLayerInitializer.run`
(init_semantic_layer.py, lines 334-349), in program order. -/
inductive InitStep where
  | connect
  | createSchemas
  | createMetadataTables
  | setupSqlServer
  | createRawViewHelpers
  | importRawTables
  | createStagingViews
  | createBusinessViews
  | createMetrics
deriving DecidableEq, BEq

def runSteps : List InitStep :=
  [.connect, .createSchemas, .createMetadataTables, .setupSqlServer,
   .createRawViewHelpers, .importRawTables, .createStagingViews,
   .createBusinessViews, .createMetrics]

/-- Each layer executes `sorted(path.glob("*.sql"))`: the model files of
one directory, in sorted filename order. -/
def layerExecutionOrder (files : List String) : List String :=
  List.insertionSort (· ≤ ·) files

/-- A SQL Server extraction query as built by
`import_table_from_sql_server`: `SELECT * FROM [<table>]`, optionally with
the `WHERE [<date_column>] >= DATEADD(day, -<days_back>, GETDATE())`
filter.  Python truthiness: the filter is added only when `date_column`
and `days_back` are both truthy (non-empty string, non-zero number). -/
structure SqlQuery where
  table : String
  dateFilter : Option (String × Nat)
deriving DecidableEq

def importQuery (sql_table_name : String) (date_column : Option String)
    (days_back : Option Nat) : SqlQuery :=
  let clean_name : String := ⟨stripQuotes sql_table_name.data⟩
  match date_column, days_back with
  | some col, some d =>
    if col ≠ "" ∧ d ≠ 0 then { table := clean_name, dateFilter := some (col, d) }
    else { table := clean_name, dateFilter := none }
  | _, _ => { table := clean_name, dateFilter := none }

/-- Evaluate an extraction query against the SQL Server world: an
unfiltered query returns every row of the table, a filtered one keeps the
rows matching the date predicate. -/
def runQuery (worldRows : String → List Row) (dateMatch : String → Nat → Row → Bool)
    (q : SqlQuery) : List Row :=
  match q.dateFilter with
  | none => worldRows q.table
  | some (col, d) => (worldRows q.table).filter (dateMatch col d)

def startsWithChars : List Char → List Char → Bool
  | [], _ => true
  | _ :: _, [] => false
  | p :: ps, c :: cs => p == c && startsWithChars ps cs

def containsSeq (pat : List Char) : List Char → Bool
  | [] => pat.isEmpty
  | c :: cs => startsWithChars pat (c :: cs) || containsSeq pat cs

def lowerStr (s : String) : String := ⟨s.data.map Char.toLower⟩

/-- `is_activity_log = 'activity_log' in sql_table.lower()`
(init_semantic_layer.py, line 236). -/
def is_activity_log (sql_table : String) : Bool :=
  containsSeq "activity_log".data (lowerStr sql_table).data

/-- The query `create_example_raw_views` builds for one configured table
(init_semantic_layer.py, lines 230-248): activity-log tables get the
`EnteredDate` filter over the last `activity_log_days` days, every other
table is extracted whole. -/
def rawImportQuery (activity_log_days : Nat) (sql_table : String) : SqlQuery :=
  if is_activity_log sql_table then
    importQuery sql_table (some "EnteredDate") (some activity_log_days)
  else
    importQuery sql_table none none

/-- DuckDB state touched by the initializer: tables keyed by
(schema, name), plus the append-only `_metadata.import_log`. -/
structure InitState where
  tables : List ((String × String) × List Row)
  import_log : List (String × Nat × String)
deriving DecidableEq

/-- `duckdb_table_name.split('.', 1)`: split at the first dot, when
there is one. -/
def splitFirstDot : List Char → Option (List Char × List Char)
  | [] => none
  | c :: cs =>
    if c = '.' then some ([], cs)
    else (splitFirstDot cs).map (fun p => (c :: p.1, p.2))

/-- `SemanticLayerInitializer.import_table_from_sql_server`
(init_semantic_layer.py, lines 160-212): on a successful extraction, drop
and recreate the target table and append a `success` row with the
dataframe length to `_metadata.import_log`; on failure, append an
`error: <message>` row with count 0 and re-raise. -/
def import_table_from_sql_server (duckdb_table_name : String)
    (extractR : Except String (List Row)) (st : InitState) :
    InitState × Except String Nat :=
  match extractR with
  | .error e =>
    ({ st with import_log := st.import_log ++ [(duckdb_table_name, 0, "error: " ++ e)] },
     .error e)
  | .ok rows =>
    let key : String × String :=
      match splitFirstDot duckdb_table_name.data with
      | some (sch, tbl) => (⟨sch⟩, ⟨tbl⟩)
      | none => ("", duckdb_table_name)
    ({ tables := (key, rows) :: st.tables.filter (fun e => decide (e.1 ≠ key)),
       import_log := st.import_log ++ [(duckdb_table_name, rows.length, "success")] },
     .ok rows.length)

def lookupInit (st : InitState) (schema name : String) : Option (List Row) :=
  (st.tables.find? (fun e => decide (e.1 = (schema, name)))).map (·.2)

/-- One iteration of `create_example_raw_views`: the configured SQL Server
table is imported into `raw.<sanitize_duckdb_name(table)>` from the rows
its (possibly filtered) query returns. -/
def importOneConfiguredTable (activity_log_days : Nat)
    (worldRows : String → List Row) (dateMatch : String → Nat → Row → Bool)
    (sql_table : String) (st : InitState) : InitState :=
  (import_table_from_sql_server ("raw." ++ sanitize_duckdb_name sql_table)
    (.ok (runQuery worldRows dateMatch (rawImportQuery activity_log_days sql_table)))
    st).1

/-! ## The view cache (`scripts/cache_view.py`) -/

inductive CacheEffect where
  | dropCache (table : String)
  | createCache (table : String) (rowCount : Nat)
  | writeMatView (view_name : String) (rowCount : Nat) (status : String)
deriving DecidableEq

structure CacheDB where
  cacheTables : List (String × Nat)
  materialized_views : List (String × Nat × String)
deriving DecidableEq

def applyCacheEffect (db : CacheDB) : CacheEffect → CacheDB
  | .dropCache t =>
      { db with cacheTables := db.cacheTables.filter (fun e => decide (e.1 ≠ t)) }
  | .createCache t n =>
      { db with cacheTables := (t, n) :: db.cacheTables }
  | .writeMatView v n st =>
      { db with materialized_views :=
          (v, n, st) :: db.materialized_views.filter (fun r => decide (r.1 ≠ v)) }

def applyCacheEffects (db : CacheDB) (es : List CacheEffect) : CacheDB :=
  es.foldl applyCacheEffect db

/-- `view_name.split('.')`: Python's full split on a one-character
separator. -/
def splitOnDot : List Char → List (List Char)
  | [] => [[]]
  | c :: cs =>
    if c = '.' then [] :: splitOnDot cs
    else
      match splitOnDot cs with
      | [] => [[c]]
      | p :: ps => (c :: p) :: ps

/-- The schema/table resolution of `cache_view` (cache_view.py, lines
22-27): a dotted name is unpacked into `schema, table` (raising
`ValueError` unless it has exactly two parts), an undotted one resolves
in the `business` schema. -/
def parseViewName (view_name : String) : Except String (String × String) :=
  if view_name.data.contains '.' then
    match splitOnDot view_name.data with
    | [sch, tbl] => .ok (⟨sch⟩, ⟨tbl⟩)
    | _ => .error "ValueError"
  else .ok ("business", view_name)

/-- `cache_view` (cache_view.py, lines 14-80): resolve the view name,
return untouched when the source relation is absent from
`information_schema.tables`, otherwise drop the cache table and rebuild
it from the view (`loadR` is the outcome of the `CREATE TABLE … AS`
statement, carrying the cached row count); the `except` branch records a
`failed: <error>` row in `_metadata.materialized_views`. -/
def cache_view (view_name : String) (tableExists : String → String → Bool)
    (loadR : Except String Nat) : List CacheEffect :=
  match parseViewName view_name with
  | .error e => [.writeMatView view_name 0 ("failed: " ++ e)]
  | .ok (schema, table) =>
    if tableExists schema table then
      match loadR with
      | .ok n => [.dropCache table, .createCache table n, .writeMatView view_name n "success"]
      | .error e => [.dropCache table, .writeMatView view_name 0 ("failed: " ++ e)]
    else []

example : parseViewName "employee_summary" = .ok ("business", "employee_summary") := rfl
example : parseViewName "metrics.monthly" = .ok ("metrics", "monthly") := rfl
example : is_activity_log "Activity_Log" = true := by decide
example : is_activity_log "CRMC_PayrollFile" = false := by decide

/-! ## Helper lemmas about effect application -/

theorem splitFirstDot_raw (x : String) :
    splitFirstDot ("raw." ++ x).data = some ("raw".data, x.data) := by
  have h : ("raw." ++ x).data = 'r' :: 'a' :: 'w' :: '.' :: x.data := by
    rw [String.data_append]
    rfl
  rw [h]
  simp [splitFirstDot]

/-! ## Claim theorems -/

/-- C9: when the SQL Server row count of the source table is 0,
`sync_table` returns early: it issues no DuckDB effect at all — the
existing `raw."<name>"` table is neither dropped nor replaced, and no
`_metadata.data_freshness` row is written. -/
theorem C9_empty_table_skip (name : String) (extractR : Except String (List Row))
    (loadR : Except String Unit) (db : DuckDB) :
    sync_table name (.ok 0) extractR loadR = []
    ∧ applySyncEffects db (sync_table name (.ok 0) extractR loadR) = db := by
  have h : sync_table name (.ok 0) extractR loadR = [] := rfl
  exact ⟨h, by rw [h]; rfl⟩

/-- C10: an undotted view name resolves in the `business` schema, and when
the resolved source relation does not exist, `cache_view` returns without
touching the database: no drop of the existing cache table and no
`_metadata.materialized_views` row. -/
theorem C10_missing_view_untouched (v : String) (ex : String → String → Bool)
    (loadR : Except String Nat) (db : CacheDB)
    (hnd : ('.' : Char) ∉ v.data) (hex : ex "business" v = false) :
    parseViewName v = .ok ("business", v)
    ∧ cache_view v ex loadR = []
    ∧ applyCacheEffects db (cache_view v ex loadR) = db := by
  have hp : parseViewName v = .ok ("business", v) := by
    simp [parseViewName, hnd]
  have hc : cache_view v ex loadR = [] := by
    simp [cache_view, hp, hex]
  exact ⟨hp, hc, by rw [hc]; rfl⟩

theorem C10_missing_view_untouched_witness :
    cache_view "employee_summary" (fun _ _ => false) (.ok 0) = []
    ∧ applyCacheEffects ⟨[("employee_summary", 5)], []⟩
        (cache_view "employee_summary" (fun _ _ => false) (.ok 0)) =
      ⟨[("employee_summary", 5)], []⟩ := by
  have h := C10_missing_view_untouched "employee_summary" (fun _ _ => false) (.ok 0)
    ⟨[("employee_summary", 5)], []⟩ (by decide) rfl
  exact ⟨h.2.1, h.2.2⟩

/-- C1: every extract/load path records its outcome as exactly one status
row and attempts nothing else — no retry, no restoration of the dropped
target table.  On success the row carries the loaded row count and status
`success` (for `sync_table` the recorded count is the SQL Server
pre-count, equal to the loaded count when the source is unchanged between
the two queries, hypothesis `hcnt`); on failure the row carries count 0
and a status embedding the error: `failed: <error>` in the sync path,
`error: <error>` in the import path (which then re-raises), `failed:
<error>` in the cache path. -/
theorem C1_outcome_logging
    (name e duck v sch tbl : String) (n : Nat) (rows : List Row)
    (st : InitState) (ex : String → String → Bool)
    (hn : n ≠ 0) (hcnt : n = rows.length)
    (hp : parseViewName v = .ok (sch, tbl)) (hex : ex sch tbl = true) :
    sync_table name (.ok n) (.ok rows) (.ok ()) =
      [.dropTable "raw" name, .createTable "raw" name rows,
       .writeFreshness name rows.length "success"]
    ∧ sync_table name (.error e) (.ok rows) (.ok ()) =
        [.writeFreshness name 0 ("failed: " ++ e)]
    ∧ sync_table name (.ok n) (.error e) (.ok ()) =
        [.writeFreshness name 0 ("failed: " ++ e)]
    ∧ sync_table name (.ok n) (.ok rows) (.error e) =
        [.dropTable "raw" name, .writeFreshness name 0 ("failed: " ++ e)]
    ∧ (import_table_from_sql_server duck (.ok rows) st).1.import_log =
        st.import_log ++ [(duck, rows.length, "success")]
    ∧ (import_table_from_sql_server duck (.error e) st).1.import_log =
        st.import_log ++ [(duck, 0, "error: " ++ e)]
    ∧ (import_table_from_sql_server duck (.error e) st).1.tables = st.tables
    ∧ (import_table_from_sql_server duck (.error e) st).2 = .error e
    ∧ cache_view v ex (.ok n) =
        [.dropCache tbl, .createCache tbl n, .writeMatView v n "success"]
    ∧ cache_view v ex (.error e) =
        [.dropCache tbl, .writeMatView v 0 ("failed: " ++ e)] := by
  subst hcnt
  refine ⟨?_, rfl, ?_, ?_, rfl, rfl, rfl, rfl, ?_, ?_⟩ <;>
    simp [sync_table, update_metadata, cache_view, hp, hex, hn]

theorem C1_outcome_logging_witness :
    sync_table "t" (.error "boom") (.ok [0, 1]) (.ok ()) =
      [.writeFreshness "t" 0 "failed: boom"]
    ∧ cache_view "business.x" (fun a b => a == "business" && b == "x") (.error "boom") =
      [.dropCache "x", .writeMatView "business.x" 0 "failed: boom"] := by
  have h := C1_outcome_logging "t" "boom" "raw.t" "business.x" "business" "x" 2 [0, 1]
    ⟨[], []⟩ (fun a b => a == "business" && b == "x") (by decide) (by decide) rfl rfl
  exact ⟨h.2.1, h.2.2.2.2.2.2.2.2.2⟩

/-- C2: for a non-empty source table whose extraction and load succeed,
the sync drops any existing `raw."<name>"` table and recreates it from
the extracted rows, so the DuckDB row count of `raw."<name>"` afterwards
equals the number of extracted rows — a full refresh. -/
theorem C2_full_refresh (name : String) (n : Nat) (rows : List Row) (db : DuckDB)
    (hn : n ≠ 0) :
    sync_table name (.ok n) (.ok rows) (.ok ()) =
      [.dropTable "raw" name, .createTable "raw" name rows,
       .writeFreshness name n "success"]
    ∧ lookupTable (applySyncEffects db (sync_table name (.ok n) (.ok rows) (.ok ())))
        "raw" name = some rows
    ∧ tableRowCount (applySyncEffects db (sync_table name (.ok n) (.ok rows) (.ok ())))
        "raw" name = rows.length := by
  have ht : sync_table name (.ok n) (.ok rows) (.ok ()) =
      [.dropTable "raw" name, .createTable "raw" name rows,
       .writeFreshness name n "success"] := by
    simp [sync_table, update_metadata, hn]
  refine ⟨ht, ?_, ?_⟩ <;>
    rw [ht] <;>
    simp [applySyncEffects, applySyncEffect, lookupTable, tableRowCount, List.find?]

theorem C2_full_refresh_witness :
    lookupTable
      (applySyncEffects ⟨[(("raw", "t"), [9, 9, 9])], []⟩
        (sync_table "t" (.ok 2) (.ok [4, 5]) (.ok ()))) "raw" "t" = some [4, 5]
    ∧ tableRowCount
        (applySyncEffects ⟨[(("raw", "t"), [9, 9, 9])], []⟩
          (sync_table "t" (.ok 2) (.ok [4, 5]) (.ok ()))) "raw" "t" = 2 := by
  have h := C2_full_refresh "t" 2 [4, 5] ⟨[(("raw", "t"), [9, 9, 9])], []⟩ (by decide)
  exact ⟨h.2.1, h.2.2⟩

/-- C3 counterexample: with `sync.batch_size = 2` configured and a
3-row source table, the sync loads all 3 rows in one `CREATE TABLE … AS`
bulk insert, exceeding the batch size — the configured value is never
consulted by the load. -/
theorem C3_batch_size_counterexample :
    batch_size (some 2) = 2
    ∧ sync_table "t" (.ok 3) (.ok [0, 1, 2]) (.ok ()) =
        [.dropTable "raw" "t", .createTable "raw" "t" [0, 1, 2],
         .writeFreshness "t" 3 "success"]
    ∧ ([0, 1, 2] : List Row).length > batch_size (some 2) := by
  refine ⟨rfl, by decide, by decide⟩

/-- C3 amended: `batch_size` is read from the config with default 10000,
but the load is a single `CREATE TABLE … AS SELECT * FROM df` statement:
the sole bulk insert of a successful sync carries the entire extracted
row set, whatever the configured batch size. -/
theorem C3_single_unbatched_insert (name : String) (n : Nat) (rows : List Row)
    (hn : n ≠ 0) :
    batch_size none = 10000
    ∧ (sync_table name (.ok n) (.ok rows) (.ok ())).filter isCreateEffect
        = [.createTable "raw" name rows] := by
  refine ⟨rfl, ?_⟩
  simp [sync_table, update_metadata, hn, isCreateEffect, List.filter]

theorem C3_single_unbatched_insert_witness :
    batch_size none = 10000
    ∧ (sync_table "t" (.ok 2) (.ok [0, 1]) (.ok ())).filter isCreateEffect
        = [.createTable "raw" "t" [0, 1]] :=
  C3_single_unbatched_insert "t" 2 [0, 1] (by decide)

/-- C4: `run` installs the view layers strictly in the order staging,
business, metrics, each after the raw-table import step, and each layer
executes its model SQL files in sorted filename order (a sorted
permutation of the directory's files). -/
theorem C4_layer_install_order :
    runSteps.indexOf InitStep.importRawTables < runSteps.indexOf InitStep.createStagingViews
    ∧ runSteps.indexOf InitStep.createStagingViews
        < runSteps.indexOf InitStep.createBusinessViews
    ∧ runSteps.indexOf InitStep.createBusinessViews
        < runSteps.indexOf InitStep.createMetrics
    ∧ ∀ files : List String,
        List.Sorted (· ≤ ·) (layerExecutionOrder files)
        ∧ (layerExecutionOrder files).Perm files := by
  refine ⟨by decide, by decide, by decide, fun files => ⟨?_, ?_⟩⟩
  · exact List.sorted_insertionSort _ _
  · exact List.perm_insertionSort _ _

/-- C5: evaluating `sync_all` at a failing input: the sole table's count
query raises, `sync_table` traps the exception and records a `failed:`
freshness row, yet the loop still increments `success_count`, so the
report claims 1/1 tables synced successfully while 0 syncs succeeded. -/
theorem C5_success_count_counts_failures :
    (sync_all ["t"] (fun _ => .error "boom") (fun _ => .ok []) (fun _ => .ok ())
        ⟨[], []⟩).1 = 1
    ∧ successCount
        (sync_all ["t"] (fun _ => .error "boom") (fun _ => .ok []) (fun _ => .ok ())
          ⟨[], []⟩).2 = 0
    ∧ (sync_all ["t"] (fun _ => .error "boom") (fun _ => .ok []) (fun _ => .ok ())
        ⟨[], []⟩).2.freshness = [("t", 0, "failed: boom")] := by
  refine ⟨rfl, by decide, by decide⟩

theorem lookupInit_import_ok (duck : String) (rows : List Row) (st : InitState)
    (sch tbl : String) (hk : splitFirstDot duck.data = some (sch.data, tbl.data)) :
    lookupInit (import_table_from_sql_server duck (.ok rows) st).1 sch tbl = some rows := by
  unfold import_table_from_sql_server lookupInit
  rw [hk]
  rw [List.find?_cons_of_pos]
  · rfl
  · simp

/-- C6 counterexample: the configured table `Activity_Log` is not copied
in its entirety — `create_example_raw_views` detects the name and builds a
query with the `EnteredDate >= DATEADD(day, -30, GETDATE())` filter, not
an unfiltered `SELECT *`. -/
theorem C6_activity_log_filter_counterexample :
    is_activity_log "Activity_Log" = true
    ∧ rawImportQuery 30 "Activity_Log" =
        { table := "Activity_Log", dateFilter := some ("EnteredDate", 30) }
    ∧ rawImportQuery 30 "Activity_Log" ≠
        { table := "Activity_Log", dateFilter := none } := by
  refine ⟨rfl, by decide, by decide⟩

/-- C6 amended: a configured table whose lowercased name does not contain
`activity_log` is imported with an unfiltered `SELECT *`, and the
resulting `raw.<sanitized-name>` DuckDB table holds exactly the full row
set of the SQL Server table; a table whose lowercased name contains
`activity_log` is imported with the `EnteredDate` date filter over the
last `activity_log_days` days (when that setting is non-zero). -/
theorem C6_import_scope (t : String) (days : Nat) (worldRows : String → List Row)
    (dateMatch : String → Nat → Row → Bool) (st : InitState) :
    (is_activity_log t = false →
      rawImportQuery days t = { table := ⟨stripQuotes t.data⟩, dateFilter := none }
      ∧ runQuery worldRows dateMatch (rawImportQuery days t) =
          worldRows ⟨stripQuotes t.data⟩
      ∧ lookupInit (importOneConfiguredTable days worldRows dateMatch t st)
          "raw" (sanitize_duckdb_name t) =
            some (worldRows ⟨stripQuotes t.data⟩))
    ∧ (is_activity_log t = true → days ≠ 0 →
      rawImportQuery days t =
        { table := ⟨stripQuotes t.data⟩, dateFilter := some ("EnteredDate", days) }) := by
  constructor
  · intro h
    have hq : rawImportQuery days t =
        { table := ⟨stripQuotes t.data⟩, dateFilter := none } := by
      simp [rawImportQuery, h, importQuery]
    have hr : runQuery worldRows dateMatch (rawImportQuery days t) =
        worldRows ⟨stripQuotes t.data⟩ := by
      rw [hq]; rfl
    refine ⟨hq, hr, ?_⟩
    unfold importOneConfiguredTable
    rw [hr]
    exact lookupInit_import_ok _ _ _ _ _ (splitFirstDot_raw _)
  · intro h hd
    simp [rawImportQuery, h, importQuery, hd]

theorem C6_import_scope_witness :
    rawImportQuery 30 "Employees" = { table := "Employees", dateFilter := none }
    ∧ runQuery (fun _ => [7, 8]) (fun _ _ _ => true) (rawImportQuery 30 "Employees")
        = [7, 8]
    ∧ rawImportQuery 30 "New_Activity_Log" =
        { table := "New_Activity_Log", dateFilter := some ("EnteredDate", 30) } := by
  have h1 := (C6_import_scope "Employees" 30 (fun _ => [7, 8]) (fun _ _ _ => true)
    ⟨[], []⟩).1 (by decide)
  have h2 := (C6_import_scope "New_Activity_Log" 30 (fun _ => [7, 8]) (fun _ _ _ => true)
    ⟨[], []⟩).2 (by decide) (by decide)
  exact ⟨h1.1.trans (by decide), h1.2.1.trans rfl, h2.trans (by decide)⟩

/-! ## Lemmas about the sanitizer -/

theorem mapChars_congr (f g : Char → List Char) (l : List Char)
    (h : ∀ c ∈ l, f c = g c) : mapChars f l = mapChars g l := by
  induction l with
  | nil => rfl
  | cons c cs ih =>
    simp only [mapChars]
    rw [h c (by simp), ih (fun d hd => h d (by simp [hd]))]

theorem mapChars_id (f : Char → List Char) (l : List Char)
    (h : ∀ c ∈ l, f c = [c]) : mapChars f l = l := by
  induction l with
  | nil => rfl
  | cons c cs ih =>
    simp only [mapChars]
    rw [h c (by simp), ih (fun d hd => h d (by simp [hd]))]
    rfl

theorem mem_mapChars (f : Char → List Char) (l : List Char) (d : Char)
    (h : d ∈ mapChars f l) : ∃ c ∈ l, d ∈ f c := by
  induction l with
  | nil => simp [mapChars] at h
  | cons c cs ih =>
    simp only [mapChars, List.mem_append] at h
    rcases h with h | h
    · exact ⟨c, by simp, h⟩
    · obtain ⟨c', hc', hd'⟩ := ih h
      exact ⟨c', by simp [hc'], hd'⟩

theorem dropWhile_eq_self_of_head (l : List Char) (h : headQuote l = false) :
    l.dropWhile isNameQuote = l := by
  cases l with
  | nil => rfl
  | cons c cs =>
    simp only [headQuote] at h
    simp [List.dropWhile, h]

theorem stripQuotes_eq_self (l : List Char) (h1 : headQuote l = false)
    (h2 : headQuote l.reverse = false) : stripQuotes l = l := by
  unfold stripQuotes
  rw [dropWhile_eq_self_of_head l h1, dropWhile_eq_self_of_head l.reverse h2,
    List.reverse_reverse]

theorem headQuote_false_of_all (l : List Char) (h : ∀ c ∈ l, isNameQuote c = false) :
    headQuote l = false := by
  cases l with
  | nil => rfl
  | cons c cs => exact h c (by simp)

theorem stripQuotes_of_no_quotes (l : List Char) (h : ∀ c ∈ l, isNameQuote c = false) :
    stripQuotes l = l :=
  stripQuotes_eq_self l (headQuote_false_of_all l h)
    (headQuote_false_of_all l.reverse (fun c hc => h c (List.mem_reverse.mp hc)))

theorem sanitizeChar_closed (c d : Char) (hd : d ∈ sanitizeChar c) :
    sanitizeChar d = [d] := by
  by_cases h1 : c = ' '
  · subst h1
    simp [sanitizeChar] at hd
    subst hd
    decide
  · by_cases h2 : c = '$'
    · subst h2
      simp [sanitizeChar] at hd
    · by_cases h3 : c = '-'
      · subst h3
        simp [sanitizeChar] at hd
        subst hd
        decide
      · by_cases h4 : c = '\''
        · subst h4
          simp [sanitizeChar] at hd
        · simp [sanitizeChar, h1, h2, h3, h4] at hd
          subst hd
          have n1 : c.toLower ≠ ' ' := toLower_ne c ' ' (by decide) h1
          have n2 : c.toLower ≠ '$' := toLower_ne c '$' (by decide) h2
          have n3 : c.toLower ≠ '-' := toLower_ne c '-' (by decide) h3
          have n4 : c.toLower ≠ '\'' := toLower_ne c '\'' (by decide) h4
          simp [sanitizeChar, n1, n2, n3, n4, toLower_toLower]

theorem sanitizeName_eq (l : List Char) :
    sanitizeName l =
      if headDigit (sanitizeCore l) then 't' :: '_' :: sanitizeCore l
      else sanitizeCore l := by
  unfold sanitizeName
  rcases he : sanitizeCore l with _ | ⟨c, cs⟩
  · simp [headDigit]
  · simp [headDigit]

theorem sanitizeName_headDigit (l : List Char) : headDigit (sanitizeName l) = false := by
  rw [sanitizeName_eq]
  by_cases h : headDigit (sanitizeCore l) = true
  · rw [if_pos h]
    simp [headDigit]
  · rw [if_neg h]
    exact Bool.not_eq_true _ |>.mp h

theorem sanitizeName_mem_closed (l : List Char) (d : Char)
    (hd : d ∈ sanitizeName l) : sanitizeChar d = [d] := by
  have hcore : ∀ x ∈ sanitizeCore l, sanitizeChar x = [x] := by
    intro x hx
    obtain ⟨c, _, hc⟩ := mem_mapChars _ _ _ hx
    exact sanitizeChar_closed c x hc
  rw [sanitizeName_eq] at hd
  by_cases h : headDigit (sanitizeCore l) = true
  · rw [if_pos h] at hd
    simp only [List.mem_cons] at hd
    rcases hd with hd | hd | hd
    · subst hd
      decide
    · subst hd
      decide
    · exact hcore d hd
  · rw [if_neg h] at hd
    exact hcore d hd

theorem sanitizeName_idem (l : List Char)
    (h1 : headQuote (sanitizeName l) = false)
    (h2 : headQuote (sanitizeName l).reverse = false) :
    sanitizeName (sanitizeName l) = sanitizeName l := by
  have hcore : sanitizeCore (sanitizeName l) = sanitizeName l := by
    unfold sanitizeCore
    rw [stripQuotes_eq_self _ h1 h2]
    exact mapChars_id _ _ (fun d hd => sanitizeName_mem_closed l d hd)
  rw [sanitizeName_eq (sanitizeName l), hcore, sanitizeName_headDigit l]
  simp

/-- C7 counterexample: the two name-cleaning steps are not the same
operation — on the one-character column name `A` the sync script's
cleaning returns `A` while `sanitize_duckdb_name` lowercases to `a`. -/
theorem C7_not_same_operation :
    cleanColumnName "A" = "A"
    ∧ sanitize_duckdb_name "A" = "a"
    ∧ cleanColumnName "A" ≠ sanitize_duckdb_name "A" := by
  refine ⟨by decide, by decide, by decide⟩

/-- C7 amended: the sync script's column cleaning and
`sanitize_duckdb_name` are distinct operations (the latter also
lowercases, strips surrounding quotes, rewrites hyphens, drops single
quotes and prefixes `t_` before a leading digit, while only the former
drops `#`).  They agree on names whose characters are fixed by
lowercasing and contain no `#`, `-`, `'` or `"`, provided the cleaned
name does not start with a digit. -/
theorem C7_cleaning_agreement (s : String)
    (h1 : ∀ c ∈ s.data, c.toLower = c ∧ c ≠ '#' ∧ c ≠ '-' ∧ c ≠ '\'' ∧ c ≠ '"')
    (h2 : headDigit (mapChars cleanColumnChar s.data) = false) :
    sanitize_duckdb_name s = cleanColumnName s := by
  have hnq : ∀ c ∈ s.data, isNameQuote c = false := by
    intro c hc
    obtain ⟨_, _, _, hq1, hq2⟩ := h1 c hc
    simp [isNameQuote, hq1, hq2]
  have hstrip : stripQuotes s.data = s.data := stripQuotes_of_no_quotes _ hnq
  have hmap : mapChars sanitizeChar s.data = mapChars cleanColumnChar s.data := by
    apply mapChars_congr
    intro c hc
    obtain ⟨hl, hh, hy, hq1, hq2⟩ := h1 c hc
    by_cases hsp : c = ' '
    · subst hsp
      decide
    · by_cases hdl : c = '$'
      · subst hdl
        decide
      · simp [sanitizeChar, cleanColumnChar, hsp, hdl, hh, hy, hq1, hl]
  have hcore : sanitizeCore s.data = mapChars cleanColumnChar s.data := by
    unfold sanitizeCore
    rw [hstrip, hmap]
  show (⟨sanitizeName s.data⟩ : String) = ⟨mapChars cleanColumnChar s.data⟩
  rw [sanitizeName_eq, hcore, h2]
  simp

theorem C7_cleaning_agreement_witness :
    sanitize_duckdb_name "net pay$" = cleanColumnName "net pay$" :=
  C7_cleaning_agreement "net pay$" (by decide) (by decide)

/-- C8 counterexample: `sanitize_duckdb_name` is not idempotent — on
`$"a` the first pass removes the `$`, exposing a leading double quote
that the strip step of a second pass then removes. -/
theorem C8_idempotence_counterexample :
    sanitize_duckdb_name "$\"a" = "\"a"
    ∧ sanitize_duckdb_name (sanitize_duckdb_name "$\"a") = "a"
    ∧ sanitize_duckdb_name (sanitize_duckdb_name "$\"a") ≠ sanitize_duckdb_name "$\"a" := by
  refine ⟨by decide, by decide, by decide⟩

/-- C8 amended: for every input, the output of `sanitize_duckdb_name`
never begins with a digit; and the function is idempotent on every input
whose sanitized output neither begins nor ends with a quote character (in
general a second application can strip double quotes that the first pass
exposed at the ends). -/
theorem C8_sanitize_idempotent_nodigit (s : String) :
    headDigit (sanitize_duckdb_name s).data = false
    ∧ (headQuote (sanitizeName s.data) = false →
        headQuote (sanitizeName s.data).reverse = false →
        sanitize_duckdb_name (sanitize_duckdb_name s) = sanitize_duckdb_name s) := by
  constructor
  · exact sanitizeName_headDigit s.data
  · intro h1 h2
    show (⟨sanitizeName (⟨sanitizeName s.data⟩ : String).data⟩ : String) = ⟨sanitizeName s.data⟩
    exact congrArg String.mk (sanitizeName_idem s.data h1 h2)

theorem C8_sanitize_idempotent_nodigit_witness :
    headDigit (sanitize_duckdb_name "$\"a").data = false
    ∧ headDigit (sanitize_duckdb_name "My Table 2024").data = false
    ∧ sanitize_duckdb_name (sanitize_duckdb_name "My Table 2024")
        = sanitize_duckdb_name "My Table 2024" := by
  refine ⟨(C8_sanitize_idempotent_nodigit "$\"a").1,
    (C8_sanitize_idempotent_nodigit "My Table 2024").1,
    (C8_sanitize_idempotent_nodigit "My Table 2024").2 (by decide) (by decide)⟩
